import Mathlib

/-!
Verification development for the Primal Genesis Engine Sovereign web interface
(`primal_genesis_web_interface.py`): a shallow embedding of the orchestration
layer (request handlers over the process-wide engine state) and of the
WebSocket status-broadcast loop, with theorems settling the spec claims.

Conventions of the embedding:
* Python `Optional[str]` becomes `Option String`; Python truthiness of such a
  value (`if request.provider:`) is `pyTruthy` (both `None` and `""` are falsy).
* Raised exceptions become `Except PyExc`; each handler body is a `*_try`
  function, and the handler wraps it with the `except Exception as e:` clause
  that re-raises `HTTPException(status_code=500, detail=str(e))`.  Note that
  FastAPI `HTTPException` is itself a subclass of `Exception`, so inner
  `HTTPException(400, ...)` raises are caught by the blanket clause and
  surface with status 500.
* `datetime.now()` timestamps are external nondeterminism and are omitted
  from response bodies.
* Externally visible side effects (environment mutation, registry commits,
  adapter invocations) are recorded in an `events` trace on the server state,
  so ordering and call-count claims are statable.
* The adapter call `primal_genesis.generate_traffic_pattern(...)` is an
  external capability; its outcome is a parameter (`AdapterOutcome`).
-/

/-- Closed provider enumeration.  Modelled from the spec: the class
`PrimalGenesisProvider` lives in `src/ai_models/primal_genesis_model.py`,
which is not under `src/`; the spec fixes a closed seven-member enumeration
and the interface page lists the seven identifier strings. -/
inductive PrimalGenesisProvider where
  | mistral
  | openai
  | anthropic
  | gemini
  | cohere
  | deepseek
  | phantom
deriving DecidableEq, Repr

/-- The string value of each provider enum member (the Python enum value). -/
def PrimalGenesisProvider.value : PrimalGenesisProvider → String
  | .mistral => "mistral"
  | .openai => "openai"
  | .anthropic => "anthropic"
  | .gemini => "gemini"
  | .cohere => "cohere"
  | .deepseek => "deepseek"
  | .phantom => "phantom"

/-- Python enum coercion `PrimalGenesisProvider(s)`: `some` member on a known
value, `none` standing for the raised `ValueError` otherwise. -/
def PrimalGenesisProvider.ofString (s : String) : Option PrimalGenesisProvider :=
  if s = "mistral" then some .mistral
  else if s = "openai" then some .openai
  else if s = "anthropic" then some .anthropic
  else if s = "gemini" then some .gemini
  else if s = "cohere" then some .cohere
  else if s = "deepseek" then some .deepseek
  else if s = "phantom" then some .phantom
  else none

/-- All seven members of the closed provider enumeration. -/
def PrimalGenesisProvider.all : List PrimalGenesisProvider :=
  [.mistral, .openai, .anthropic, .gemini, .cohere, .deepseek, .phantom]

/-- Closed operating-mode enumeration.  Modelled from the spec: the class
`MysticalMode` lives in `src/ai_models/primal_genesis_model.py`, which is not
under `src/`; the spec fixes a closed six-member enumeration and the
interface page lists the six identifier strings. -/
inductive MysticalMode where
  | creative
  | technical
  | workflow
  | government
  | ethereal
  | sovereign
deriving DecidableEq, Repr

/-- The string value of each mode enum member (the Python enum value). -/
def MysticalMode.value : MysticalMode → String
  | .creative => "creative"
  | .technical => "technical"
  | .workflow => "workflow"
  | .government => "government"
  | .ethereal => "ethereal"
  | .sovereign => "sovereign"

/-- Python enum coercion `MysticalMode(s)`: `some` member on a known value,
`none` standing for the raised `ValueError` otherwise. -/
def MysticalMode.ofString (s : String) : Option MysticalMode :=
  if s = "creative" then some .creative
  else if s = "technical" then some .technical
  else if s = "workflow" then some .workflow
  else if s = "government" then some .government
  else if s = "ethereal" then some .ethereal
  else if s = "sovereign" then some .sovereign
  else none

/-- All six members of the closed mode enumeration. -/
def MysticalMode.all : List MysticalMode :=
  [.creative, .technical, .workflow, .government, .ethereal, .sovereign]

/-- The engine aggregate.  Modelled from the spec: `PrimalGenesisModel` is
defined in `src/ai_models/primal_genesis_model.py`, which is not under
`src/`; the spec (§3, EngineConfiguration) fixes the fields: active provider,
active mode, numeric entropy level, numeric cadence/frequency, and two
boolean feature toggles.  The frequency is kept as a natural number of MHz
(startup default 144). -/
structure PrimalGenesisModel where
  current_provider : PrimalGenesisProvider
  mystical_mode : MysticalMode
  quantum_entropy_level : Nat
  ethereal_frequency : Nat
  enable_phantom_analytics : Bool
  enable_shadow_tendrils : Bool
deriving DecidableEq, Repr

/-- Modelled from the spec: `Registry.setProvider` commits the given provider
as the active provider (§4.1); called by the handlers as
`primal_genesis.switch_provider(provider)`. -/
def PrimalGenesisModel.switch_provider (g : PrimalGenesisModel)
    (p : PrimalGenesisProvider) : PrimalGenesisModel :=
  { g with current_provider := p }

/-- Modelled from the spec: `Registry.setMode` commits the given mode as the
active mode (§4.1); called by the handlers as
`primal_genesis.switch_mystical_mode(mode)`. -/
def PrimalGenesisModel.switch_mystical_mode (g : PrimalGenesisModel)
    (m : MysticalMode) : PrimalGenesisModel :=
  { g with mystical_mode := m }

/-- The status snapshot returned by `get_sovereign_status`.  Field names are
the ones the interface page reads from the JSON
(`status.sovereign_awakened`, `status.current_provider`, ...). -/
structure SovereignStatus where
  sovereign_awakened : Bool
  current_provider : String
  mystical_mode : String
  ethereal_frequency : Nat
  quantum_entropy_level : Nat
  shadow_tendrils_active : Bool
  phantom_analytics_enabled : Bool
deriving DecidableEq, Repr

/-- Modelled from the spec: `GetStatus` returns the current
EngineConfiguration snapshot plus the derived readiness flag, with no side
effects (§4.3 item 4); the readiness flag is true once the adapter has been
initialized, which holds whenever the model object exists. -/
def PrimalGenesisModel.get_sovereign_status (g : PrimalGenesisModel) : SovereignStatus :=
  { sovereign_awakened := true
    current_provider := g.current_provider.value
    mystical_mode := g.mystical_mode.value
    ethereal_frequency := g.ethereal_frequency
    quantum_entropy_level := g.quantum_entropy_level
    shadow_tendrils_active := g.enable_shadow_tendrils
    phantom_analytics_enabled := g.enable_phantom_analytics }

/-- Modelled from the spec: `primal_genesis.provider_configs[p]["api_key_env"]`
maps each provider to the name of the environment variable holding its
credential (the credential-configuration side channel of §4.2/§4.3). -/
def PrimalGenesisModel.provider_configs : PrimalGenesisProvider → String
  | .mistral => "MISTRAL_API_KEY"
  | .openai => "OPENAI_API_KEY"
  | .anthropic => "ANTHROPIC_API_KEY"
  | .gemini => "GEMINI_API_KEY"
  | .cohere => "COHERE_API_KEY"
  | .deepseek => "DEEPSEEK_API_KEY"
  | .phantom => "PHANTOM_API_KEY"

/-- Request model for traffic generation (`class TrafficRequest`). -/
structure TrafficRequest where
  target_url : String
  behavior_type : String
  intensity : Int
  provider : Option String
  mystical_mode : Option String
deriving DecidableEq, Repr

/-- Provider configuration model (`class ProviderConfig`). -/
structure ProviderConfig where
  provider : String
  api_key : String
deriving DecidableEq, Repr

/-- Mystical mode switching request (`class MysticalModeRequest`). -/
structure MysticalModeRequest where
  mode : String
deriving DecidableEq, Repr

/-- Python truthiness of an `Optional[str]`: `None` and `""` are falsy. -/
def pyTruthy : Option String → Bool
  | none => false
  | some s => s != ""

/-- Exceptions raised inside a handler body. -/
inductive PyExc where
  | http (status : Nat) (detail : String)
  | valueError (msg : String)
  | backendError (msg : String)
deriving DecidableEq, Repr

/-- Python `str(e)` for the exceptions above.  For `HTTPException`, starlette
renders `"{status_code}: {detail}"`; for the others the message itself. -/
def pyStr : PyExc → String
  | .http st d => toString st ++ ": " ++ d
  | .valueError m => m
  | .backendError m => m

/-- The `ValueError` message raised by Python enum coercion on an unknown
value (quote characters around the value elided). -/
def enumValueError (cls v : String) : String :=
  v ++ " is not a valid " ++ cls

/-- Externally visible side effects of a handler, in program order:
credential installation into the environment side channel, provider or mode
commits to the registry, and adapter invocations (with the arguments the
adapter receives). -/
inductive Event where
  | setCredential (envName : String) (apiKey : String)
  | commitProvider (p : PrimalGenesisProvider)
  | commitMode (m : MysticalMode)
  | adapterCall (target : String) (behavior : String) (intensity : Int)
deriving DecidableEq, Repr

/-- The process-wide mutable state the handlers touch: the global
`primal_genesis` handle (`None` before startup completes), the `os.environ`
mapping, and the trace of externally visible side effects. -/
structure ServerState where
  primal_genesis : Option PrimalGenesisModel
  environ : List (String × String)
  events : List Event
deriving DecidableEq, Repr

/-- Append one event to the trace. -/
def ServerState.log (s : ServerState) (ev : Event) : ServerState :=
  { s with events := s.events ++ [ev] }

/-- `os.environ[k] = v`: overwrite-or-insert on the association list. -/
def os_environ_set (env : List (String × String)) (k v : String) :
    List (String × String) :=
  (k, v) :: env.filter (fun kv => kv.1 != k)

/-- Outcome of the external adapter call
`primal_genesis.generate_traffic_pattern(...)`: structured content plus
metadata, or a raised failure (§4.2: `BackendError`). -/
inductive AdapterOutcome where
  | success (content : String) (metadata : List (String × String))
  | failure (msg : String)
deriving DecidableEq, Repr

/-- Successful body of `/api/generate-traffic` (timestamp omitted; the JSON
re-parse of the content string is presentation only and kept verbatim). -/
structure GenerateOk where
  traffic_pattern : String
  metadata : List (String × String)
deriving DecidableEq, Repr

/-- HTTP-level handler responses (timestamps omitted). -/
inductive HResp where
  | okGenerate (body : GenerateOk)
  | okSwitchProvider (current_provider : String)
  | okSwitchMode (current_mode : String)
  | okStatus (status : SovereignStatus)
  | err (status : Nat) (detail : String)
deriving DecidableEq, Repr

/-- The HTTP status code of a response (success responses are 200). -/
def HResp.statusCode : HResp → Nat
  | .err st _ => st
  | _ => 200

/-- The detail message raised when the global engine handle is absent. -/
def notInitializedDetail : String := "Primal Genesis Engine not initialized"

/-- Lines 661-666 of `generate_traffic`: `if request.provider:` coerce the
string to the enum (`ValueError` becomes `HTTPException(400, ...)`) and
immediately `switch_provider`.  Returns the updated engine and state, or the
exception with the state unchanged. -/
def providerOverrideStep (s : ServerState) (g : PrimalGenesisModel)
    (request : TrafficRequest) : Except PyExc (PrimalGenesisModel × ServerState) :=
  if pyTruthy request.provider then
    match PrimalGenesisProvider.ofString (request.provider.getD "") with
    | some p =>
      let g1 := g.switch_provider p
      Except.ok (g1, ({ s with primal_genesis := some g1 }).log (Event.commitProvider p))
    | none =>
      Except.error (PyExc.http 400 ("Invalid provider: " ++ request.provider.getD ""))
  else
    Except.ok (g, s)

/-- Lines 669-674 of `generate_traffic`: `if request.mystical_mode:` coerce
the string to the enum (`ValueError` becomes `HTTPException(400, ...)`) and
immediately `switch_mystical_mode`. -/
def modeOverrideStep (s : ServerState) (g : PrimalGenesisModel)
    (request : TrafficRequest) : Except PyExc (PrimalGenesisModel × ServerState) :=
  if pyTruthy request.mystical_mode then
    match MysticalMode.ofString (request.mystical_mode.getD "") with
    | some m =>
      let g1 := g.switch_mystical_mode m
      Except.ok (g1, ({ s with primal_genesis := some g1 }).log (Event.commitMode m))
    | none =>
      Except.error
        (PyExc.http 400 ("Invalid mystical mode: " ++ request.mystical_mode.getD ""))
  else
    Except.ok (g, s)

/-- Body of the `try:` block of `/api/generate-traffic` (lines 656-688): the
not-initialized guard, the two override blocks in order, then the adapter
call with the request intensity passed through unvalidated. -/
def generate_traffic_try (s0 : ServerState) (request : TrafficRequest)
    (adapter : AdapterOutcome) : Except PyExc GenerateOk × ServerState :=
  match s0.primal_genesis with
  | none => (Except.error (PyExc.http 500 notInitializedDetail), s0)
  | some g0 =>
    match providerOverrideStep s0 g0 request with
    | Except.error e => (Except.error e, s0)
    | Except.ok (g1, s1) =>
      match modeOverrideStep s1 g1 request with
      | Except.error e => (Except.error e, s1)
      | Except.ok (_, s2) =>
        let s3 := s2.log
          (Event.adapterCall request.target_url request.behavior_type request.intensity)
        match adapter with
        | AdapterOutcome.success content metadata =>
          (Except.ok { traffic_pattern := content, metadata := metadata }, s3)
        | AdapterOutcome.failure msg =>
          (Except.error (PyExc.backendError msg), s3)

/-- `POST /api/generate-traffic` (lines 653-692).  The blanket
`except Exception as e: raise HTTPException(500, str(e))` catches every
exception of the body, the inner `HTTPException(400, ...)` included, and
surfaces it with status 500. -/
def generate_traffic (s0 : ServerState) (request : TrafficRequest)
    (adapter : AdapterOutcome) : HResp × ServerState :=
  match generate_traffic_try s0 request adapter with
  | (Except.ok body, s) => (HResp.okGenerate body, s)
  | (Except.error e, s) => (HResp.err 500 (pyStr e), s)

/-- Lines 706-707 of `switch_provider`: coerce the provider string
(`ValueError` on unknown values) and commit the switch. -/
def switch_provider_commit (s : ServerState) (g0 : PrimalGenesisModel)
    (config : ProviderConfig) : Except PyExc String × ServerState :=
  match PrimalGenesisProvider.ofString config.provider with
  | none =>
    (Except.error (PyExc.valueError (enumValueError "PrimalGenesisProvider" config.provider)), s)
  | some p =>
    (Except.ok config.provider,
      ({ s with primal_genesis := some (g0.switch_provider p) }).log (Event.commitProvider p))

/-- Body of the `try:` block of `/api/switch-provider` (lines 697-714): the
not-initialized guard; then `if config.api_key:` install the credential into
`os.environ` under the provider's `api_key_env` name (coercing the provider
string first, so an unknown provider raises `ValueError` here already); then
coerce again and commit the switch. -/
def switch_provider_try (s0 : ServerState) (config : ProviderConfig) :
    Except PyExc String × ServerState :=
  match s0.primal_genesis with
  | none => (Except.error (PyExc.http 500 notInitializedDetail), s0)
  | some g0 =>
    if config.api_key != "" then
      match PrimalGenesisProvider.ofString config.provider with
      | none =>
        (Except.error (PyExc.valueError (enumValueError "PrimalGenesisProvider" config.provider)), s0)
      | some p =>
        let envName := PrimalGenesisModel.provider_configs p
        let s1 := ({ s0 with environ := os_environ_set s0.environ envName config.api_key }).log
          (Event.setCredential envName config.api_key)
        switch_provider_commit s1 g0 config
    else
      switch_provider_commit s0 g0 config

/-- `POST /api/switch-provider` (lines 694-718), with the blanket
`except Exception` wrap: every failure surfaces with status 500. -/
def switch_provider (s0 : ServerState) (config : ProviderConfig) :
    HResp × ServerState :=
  match switch_provider_try s0 config with
  | (Except.ok prov, s) => (HResp.okSwitchProvider prov, s)
  | (Except.error e, s) => (HResp.err 500 (pyStr e), s)

/-- Body of the `try:` block of `/api/switch-mode` (lines 723-735): the
not-initialized guard, enum coercion (`ValueError` on unknown modes), and
the committed switch. -/
def switch_mystical_mode_try (s0 : ServerState) (request : MysticalModeRequest) :
    Except PyExc String × ServerState :=
  match s0.primal_genesis with
  | none => (Except.error (PyExc.http 500 notInitializedDetail), s0)
  | some g0 =>
    match MysticalMode.ofString request.mode with
    | none =>
      (Except.error (PyExc.valueError (enumValueError "MysticalMode" request.mode)), s0)
    | some m =>
      (Except.ok request.mode,
        ({ s0 with primal_genesis := some (g0.switch_mystical_mode m) }).log (Event.commitMode m))

/-- `POST /api/switch-mode` (lines 720-739), with the blanket
`except Exception` wrap: every failure surfaces with status 500. -/
def switch_mystical_mode (s0 : ServerState) (request : MysticalModeRequest) :
    HResp × ServerState :=
  match switch_mystical_mode_try s0 request with
  | (Except.ok m, s) => (HResp.okSwitchMode m, s)
  | (Except.error e, s) => (HResp.err 500 (pyStr e), s)

/-- `GET /api/sovereign-status` (lines 741-752): the not-initialized guard
(wrapped to status 500 by the blanket clause) or the snapshot; no mutation. -/
def get_sovereign_status (s : ServerState) : HResp × ServerState :=
  match s.primal_genesis with
  | none => (HResp.err 500 (pyStr (PyExc.http 500 notInitializedDetail)), s)
  | some g => (HResp.okStatus g.get_sovereign_status, s)

/-- One message of the WebSocket loop (line 782-786): type `"status_update"`
and, as data, the sovereign status when the engine exists or the empty JSON
object (encoded `none`) when it does not. -/
structure WsMsg where
  type : String
  data : Option SovereignStatus
deriving DecidableEq, Repr

/-- The message the loop body of `websocket_endpoint` sends:
`primal_genesis.get_sovereign_status() if primal_genesis else {}`. -/
def websocket_message (engine : Option PrimalGenesisModel) : WsMsg :=
  { type := "status_update", data := engine.map PrimalGenesisModel.get_sovereign_status }

/-- The sends of the `while True:` loop of `websocket_endpoint`, starting at
time `t`, for `n` iterations: each iteration sends the status message at the
current time and then sleeps 30 time units (`await asyncio.sleep(30)`). -/
def websocket_sends (engine : Option PrimalGenesisModel) :
    Nat → Nat → List (Nat × WsMsg)
  | 0, _ => []
  | Nat.succ n, t => (t, websocket_message engine) :: websocket_sends engine n (t + 30)

/-- The first `cycles` sends of one WebSocket connection, measured from the
instant of subscription (the loop's first send happens before any sleep). -/
def websocket_endpoint (engine : Option PrimalGenesisModel) (cycles : Nat) :
    List (Nat × WsMsg) :=
  websocket_sends engine cycles 0

/-- `await websocket.accept()` followed by `active_connections.append(...)`:
subscription is unconditional and total (it cannot fail or reject), and adds
the connection to the broadcast set. -/
def websocket_accept (conns : List Nat) (c : Nat) : List Nat :=
  conns ++ [c]

/-- Per-connection send outcome: the send either delivers, or the framework
signals `WebSocketDisconnect` (the failure mode the handler catches). -/
inductive SendOutcome where
  | delivered
  | disconnected
deriving DecidableEq, Repr

/-- Observer connection life-cycle state after an iteration. -/
inductive ConnState where
  | active
  | closed
deriving DecidableEq, Repr

/-- Result of one iteration of one connection's loop: the broadcast set, the
message delivered to that connection (if any), and the connection state. -/
structure WsIterResult where
  conns : List Nat
  sent : Option WsMsg
  state : ConnState
deriving DecidableEq, Repr

/-- One iteration of connection `c`'s loop in `websocket_endpoint`
(lines 779-790): on a delivered send the connection stays active and the
broadcast set is untouched; on `WebSocketDisconnect` the `except` clause runs
`active_connections.remove(websocket)` and the connection's task ends
(closed).  Each connection runs its own loop: the message it is sent depends
only on the engine state, never on the broadcast set. -/
def websocket_iteration (conns : List Nat) (engine : Option PrimalGenesisModel)
    (c : Nat) : SendOutcome → WsIterResult
  | .delivered => { conns := conns, sent := some (websocket_message engine), state := .active }
  | .disconnected => { conns := conns.erase c, sent := none, state := .closed }

/-- The engine state installed by `startup_event` (lines 82-91): provider
MISTRAL, mode SOVEREIGN, phantom analytics and shadow tendrils enabled,
entropy 42, frequency 144. -/
def startupEngine : PrimalGenesisModel :=
  { current_provider := .mistral
    mystical_mode := .sovereign
    quantum_entropy_level := 42
    ethereal_frequency := 144
    enable_phantom_analytics := true
    enable_shadow_tendrils := true }

/-- A freshly started server: engine initialized with the startup defaults,
empty environment, empty trace. -/
def startupState : ServerState :=
  { primal_genesis := some startupEngine, environ := [], events := [] }

/-- The whole process state: the server state the request handlers read and
write, and the `active_connections` list owned by the WebSocket endpoint. -/
structure SystemState where
  server : ServerState
  active_connections : List Nat
deriving DecidableEq, Repr

/-- The `except WebSocketDisconnect:` clause at system level: it runs only
`active_connections.remove(websocket)` and touches nothing else. -/
def system_ws_disconnect (sys : SystemState) (c : Nat) : SystemState :=
  { sys with active_connections := sys.active_connections.erase c }

/-- A generation request with intensity 11 (outside the documented 1-10
range) and no overrides. -/
def reqIntensity11 : TrafficRequest :=
  { target_url := "https://example.com"
    behavior_type := "organic"
    intensity := 11
    provider := none
    mystical_mode := none }

/-- A generation request carrying a valid provider override and an unknown
mode override. -/
def reqValidProviderBadMode : TrafficRequest :=
  { target_url := "https://example.com"
    behavior_type := "organic"
    intensity := 5
    provider := some "openai"
    mystical_mode := some "quantumflux" }

/-- A switch-provider request naming an identifier outside the closed
enumeration, without a credential. -/
def cfgUnknownProvider : ProviderConfig :=
  { provider := "quantum", api_key := "" }

/-- A switch-provider request with a valid identifier and a credential. -/
def cfgOpenaiWithKey : ProviderConfig :=
  { provider := "openai", api_key := "sk-test-123" }

/-- A switch-mode request naming an identifier outside the closed
enumeration. -/
def modeUnknownRequest : MysticalModeRequest :=
  { mode := "quantumflux" }

/-- The server state before `startup_event` has run: the global
`primal_genesis` handle is still `None`. -/
def uninitState : ServerState :=
  { primal_genesis := none, environ := [], events := [] }

theorem provider_mem_all (p : PrimalGenesisProvider) : p ∈ PrimalGenesisProvider.all := by
  cases p <;> simp [PrimalGenesisProvider.all]

theorem mode_mem_all (m : MysticalMode) : m ∈ MysticalMode.all := by
  cases m <;> simp [MysticalMode.all]

theorem os_environ_set_idem (env : List (String × String)) (k v : String) :
    os_environ_set (os_environ_set env k v) k v = os_environ_set env k v := by
  unfold os_environ_set
  simp [List.filter_filter]

theorem websocket_sends_eq (engine : Option PrimalGenesisModel) :
    ∀ n t, websocket_sends engine n t =
      (List.range n).map (fun k => (t + 30 * k, websocket_message engine)) := by
  intro n
  induction n with
  | zero => intro t; rfl
  | succ n ih =>
    intro t
    rw [List.range_succ_eq_map]
    simp only [websocket_sends, List.map_cons, List.map_map, Function.comp]
    refine congrArg₂ List.cons (by simp) ?_
    rw [ih (t + 30)]
    apply List.map_congr_left
    intro k _
    refine congrArg₂ Prod.mk (by omega) rfl

theorem websocket_endpoint_eq (engine : Option PrimalGenesisModel) (cycles : Nat) :
    websocket_endpoint engine cycles =
      (List.range cycles).map (fun k => (30 * k, websocket_message engine)) := by
  rw [websocket_endpoint, websocket_sends_eq]
  apply List.map_congr_left
  intro k _
  refine congrArg₂ Prod.mk (by omega) rfl

/-- C1 counterexample: at intensity 11 (outside the bounded range) with no
overrides, `generate_traffic` does NOT return an InvalidIntensity client
error: it invokes the Adapter (the call is recorded in the trace, so the
Adapter call count changes from 0 to 1) and returns the Adapter result. -/
theorem c1_counterexample :
    (generate_traffic startupState reqIntensity11 (AdapterOutcome.success "[]" [])).2.events =
      [Event.adapterCall "https://example.com" "organic" 11] ∧
    (generate_traffic startupState reqIntensity11 (AdapterOutcome.success "[]" [])).1 =
      HResp.okGenerate { traffic_pattern := "[]", metadata := [] } ∧
    startupState.events.length = 0 := by
  refine ⟨rfl, rfl, rfl⟩

/-- C1 (amended): `generate_traffic` performs no intensity validation.  For
every initialized state and every request without overrides whose intensity
lies outside the range 1-10, the Adapter IS invoked exactly once, receiving
the out-of-range intensity unchanged; the Registry is left unchanged (there
being no overrides), and the response is the Adapter outcome (200 on
success, 500 on backend failure) — never an InvalidIntensity error. -/
theorem c1_no_intensity_validation (s : ServerState) (g : PrimalGenesisModel)
    (request : TrafficRequest) (adapter : AdapterOutcome)
    (hg : s.primal_genesis = some g)
    (hp : pyTruthy request.provider = false)
    (hm : pyTruthy request.mystical_mode = false)
    (hi : request.intensity < 1 ∨ 10 < request.intensity) :
    (generate_traffic s request adapter).2.events =
      s.events ++ [Event.adapterCall request.target_url request.behavior_type request.intensity] ∧
    (generate_traffic s request adapter).2.primal_genesis = some g ∧
    (∀ c md, adapter = AdapterOutcome.success c md →
      (generate_traffic s request adapter).1 =
        HResp.okGenerate { traffic_pattern := c, metadata := md }) ∧
    (∀ msg, adapter = AdapterOutcome.failure msg →
      (generate_traffic s request adapter).1 = HResp.err 500 msg) := by
  unfold generate_traffic generate_traffic_try providerOverrideStep modeOverrideStep
  rw [hg]
  simp only [hp, hm, Bool.false_eq_true, if_false, ServerState.log]
  cases adapter <;> simp [pyStr, hg]

/-- C1 witness: the amended theorem applied at a concrete out-of-range
request (intensity 11) against the startup state with a failing adapter. -/
theorem c1_witness :
    startupState.primal_genesis = some startupEngine ∧
    (reqIntensity11.intensity < 1 ∨ 10 < reqIntensity11.intensity) ∧
    (generate_traffic startupState reqIntensity11 (AdapterOutcome.failure "backend down")).2.events =
      startupState.events ++ [Event.adapterCall "https://example.com" "organic" 11] :=
  ⟨rfl, by decide,
    (c1_no_intensity_validation startupState startupEngine reqIntensity11
      (AdapterOutcome.failure "backend down") rfl rfl rfl (by decide)).1⟩

/-- C2 counterexample: a request with valid provider override "openai" and
unknown mode override "quantumflux" against the startup state (provider
mistral) leaves the Registry CHANGED — the provider override was already
committed when mode validation failed — contradicting the claim that every
request failing any validation step leaves the Registry unchanged. -/
theorem c2_counterexample :
    (generate_traffic startupState reqValidProviderBadMode
        (AdapterOutcome.success "[]" [])).2.primal_genesis ≠ startupState.primal_genesis ∧
    (generate_traffic startupState reqValidProviderBadMode
        (AdapterOutcome.success "[]" [])).2.primal_genesis =
      some (startupEngine.switch_provider PrimalGenesisProvider.openai) ∧
    (generate_traffic startupState reqValidProviderBadMode
        (AdapterOutcome.success "[]" [])).1.statusCode = 500 := by
  refine ⟨by decide, rfl, rfl⟩

/-- C2 (amended): `generate_traffic` parses and immediately applies each
override in program order (provider first, then mode) instead of validating
everything before applying anything, and never validates intensity.
Consequently, a request with a valid provider override and an unknown mode
override fails with the invalid-mode error (wrapped to status 500 by the
blanket exception clause), the Adapter is not invoked, but the provider
override has already been committed to the Registry. -/
theorem c2_interleaved_validation (s : ServerState) (g : PrimalGenesisModel)
    (request : TrafficRequest) (adapter : AdapterOutcome)
    (pstr mstr : String) (p : PrimalGenesisProvider)
    (hg : s.primal_genesis = some g)
    (hps : request.provider = some pstr)
    (hpt : pstr ≠ "")
    (hpp : PrimalGenesisProvider.ofString pstr = some p)
    (hms : request.mystical_mode = some mstr)
    (hmt : mstr ≠ "")
    (hmm : MysticalMode.ofString mstr = none) :
    (generate_traffic s request adapter).1 =
      HResp.err 500 (pyStr (PyExc.http 400 ("Invalid mystical mode: " ++ mstr))) ∧
    (generate_traffic s request adapter).2.primal_genesis = some (g.switch_provider p) ∧
    (generate_traffic s request adapter).2.events = s.events ++ [Event.commitProvider p] := by
  unfold generate_traffic generate_traffic_try providerOverrideStep modeOverrideStep
  rw [hg]
  simp [hps, hmt, hpt, hpp, hms, hmm, pyTruthy, ServerState.log]

/-- C2 witness: the amended theorem applied at the concrete request with
provider override "openai" and mode override "quantumflux" against the
startup state. -/
theorem c2_witness :
    startupState.primal_genesis = some startupEngine ∧
    PrimalGenesisProvider.ofString "openai" = some PrimalGenesisProvider.openai ∧
    MysticalMode.ofString "quantumflux" = none ∧
    (generate_traffic startupState reqValidProviderBadMode
        (AdapterOutcome.success "[]" [])).2.primal_genesis =
      some (startupEngine.switch_provider PrimalGenesisProvider.openai) :=
  ⟨rfl, by decide, by decide,
    (c2_interleaved_validation startupState startupEngine reqValidProviderBadMode
      (AdapterOutcome.success "[]" []) "openai" "quantumflux" PrimalGenesisProvider.openai
      rfl rfl (by decide) (by decide) rfl (by decide) (by decide)).2.1⟩

/-- C3 counterexample: an unknown provider "quantum" to `switch_provider` and
an unknown mode "quantumflux" to `switch_mystical_mode` are rejected with
status 500, not with a client-error 400: the enum-coercion ValueError is
caught by the blanket `except Exception` clause and re-raised as
`HTTPException(500, str(e))`. -/
theorem c3_counterexample :
    (switch_provider startupState cfgUnknownProvider).1.statusCode = 500 ∧
    (switch_provider startupState cfgUnknownProvider).1.statusCode ≠ 400 ∧
    (switch_mystical_mode startupState modeUnknownRequest).1.statusCode = 500 ∧
    (switch_mystical_mode startupState modeUnknownRequest).1.statusCode ≠ 400 := by
  refine ⟨rfl, by decide, rfl, by decide⟩

/-- C3 (amended): for every provider identifier outside the closed
seven-member enumeration, `switch_provider` rejects with the enum-coercion
ValueError surfaced at SERVER-error status 500 (not 400) and leaves the
whole server state — in particular the Registry's active provider —
unchanged; likewise `switch_mystical_mode` rejects every mode identifier
outside the closed six-member enumeration with status 500 and leaves the
state unchanged. -/
theorem c3_unknown_identifier_rejected (s : ServerState) (g : PrimalGenesisModel)
    (config : ProviderConfig) (request : MysticalModeRequest)
    (hg : s.primal_genesis = some g)
    (hp : PrimalGenesisProvider.ofString config.provider = none)
    (hm : MysticalMode.ofString request.mode = none) :
    (switch_provider s config).1 =
      HResp.err 500 (enumValueError "PrimalGenesisProvider" config.provider) ∧
    (switch_provider s config).1.statusCode = 500 ∧
    (switch_provider s config).2 = s ∧
    (switch_mystical_mode s request).1 =
      HResp.err 500 (enumValueError "MysticalMode" request.mode) ∧
    (switch_mystical_mode s request).1.statusCode = 500 ∧
    (switch_mystical_mode s request).2 = s := by
  unfold switch_provider switch_provider_try switch_provider_commit
    switch_mystical_mode switch_mystical_mode_try
  rw [hg]
  by_cases hk : config.api_key = "" <;>
    simp [hk, hp, hm, pyStr, HResp.statusCode]

/-- C3 witness: the amended theorem applied at the concrete unknown
identifiers "quantum" and "quantumflux" against the startup state. -/
theorem c3_witness :
    startupState.primal_genesis = some startupEngine ∧
    PrimalGenesisProvider.ofString "quantum" = none ∧
    MysticalMode.ofString "quantumflux" = none ∧
    (switch_provider startupState cfgUnknownProvider).2 = startupState :=
  ⟨rfl, by decide, by decide,
    (c3_unknown_identifier_rejected startupState startupEngine cfgUnknownProvider
      modeUnknownRequest rfl (by decide) (by decide)).2.2.1⟩

/-- C4: override commit law.  A valid provider override `p` (with no mode
override) is committed to the Registry strictly before the Adapter is
invoked — the trace shows the commit event preceding the adapter call — and
the committed switch survives regardless of the Adapter outcome: the final
state holds provider `p`, a subsequent `get_sovereign_status` reports it,
and nothing rolls it back on generation failure. -/
theorem c4_override_commit (s : ServerState) (g : PrimalGenesisModel)
    (request : TrafficRequest) (pstr : String) (p : PrimalGenesisProvider)
    (hg : s.primal_genesis = some g)
    (hps : request.provider = some pstr)
    (hpt : pstr ≠ "")
    (hpp : PrimalGenesisProvider.ofString pstr = some p)
    (hm : pyTruthy request.mystical_mode = false)
    (hdiff : p ≠ g.current_provider) :
    ∀ adapter : AdapterOutcome,
      (generate_traffic s request adapter).2.primal_genesis = some (g.switch_provider p) ∧
      (get_sovereign_status (generate_traffic s request adapter).2).1 =
        HResp.okStatus (g.switch_provider p).get_sovereign_status ∧
      (g.switch_provider p).get_sovereign_status.current_provider = p.value ∧
      (generate_traffic s request adapter).2.events =
        s.events ++ [Event.commitProvider p,
          Event.adapterCall request.target_url request.behavior_type request.intensity] := by
  intro adapter
  have hptr : pyTruthy (some pstr) = true := by simp [pyTruthy, hpt]
  unfold generate_traffic generate_traffic_try providerOverrideStep modeOverrideStep
    get_sovereign_status PrimalGenesisModel.get_sovereign_status
  rw [hg, hps]
  cases adapter <;>
    simp [hptr, hm, hpp, ServerState.log, PrimalGenesisModel.switch_provider]

/-- C4 witness: the override commit law applied at a concrete request with
provider override "openai" (differing from the startup provider mistral), no
mode override, and a FAILING adapter: the provider is committed anyway. -/
theorem c4_witness :
    startupState.primal_genesis = some startupEngine ∧
    PrimalGenesisProvider.ofString "openai" = some PrimalGenesisProvider.openai ∧
    PrimalGenesisProvider.openai ≠ startupEngine.current_provider ∧
    (generate_traffic startupState
        { target_url := "https://example.com", behavior_type := "organic", intensity := 5,
          provider := some "openai", mystical_mode := none }
        (AdapterOutcome.failure "backend down")).2.primal_genesis =
      some (startupEngine.switch_provider PrimalGenesisProvider.openai) :=
  ⟨rfl, by decide, by decide,
    (c4_override_commit startupState startupEngine
      { target_url := "https://example.com", behavior_type := "organic", intensity := 5,
        provider := some "openai", mystical_mode := none }
      "openai" PrimalGenesisProvider.openai rfl rfl (by decide) (by decide) rfl (by decide)
      (AdapterOutcome.failure "backend down")).1⟩


theorem generate_traffic_engine_some (s : ServerState) (g : PrimalGenesisModel)
    (request : TrafficRequest) (adapter : AdapterOutcome)
    (hg : s.primal_genesis = some g) :
    ∃ g2, (generate_traffic s request adapter).2.primal_genesis = some g2 := by
  rcases hpp : PrimalGenesisProvider.ofString (request.provider.getD "") with _ | p <;>
  rcases hmm : MysticalMode.ofString (request.mystical_mode.getD "") with _ | m <;>
  by_cases hp : pyTruthy request.provider = true <;>
  by_cases hm : pyTruthy request.mystical_mode = true <;>
  cases adapter <;>
    simp [generate_traffic, generate_traffic_try, providerOverrideStep, modeOverrideStep,
      ServerState.log, hg, hpp, hmm, hp, hm]

theorem switch_provider_engine_some (s : ServerState) (g : PrimalGenesisModel)
    (config : ProviderConfig)
    (hg : s.primal_genesis = some g) :
    ∃ g2, (switch_provider s config).2.primal_genesis = some g2 := by
  rcases hp : PrimalGenesisProvider.ofString config.provider with _ | p <;>
  by_cases hk : config.api_key = "" <;>
    simp [switch_provider, switch_provider_try, switch_provider_commit,
      ServerState.log, hg, hp, hk]

theorem switch_mystical_mode_engine_some (s : ServerState) (g : PrimalGenesisModel)
    (request : MysticalModeRequest)
    (hg : s.primal_genesis = some g) :
    ∃ g2, (switch_mystical_mode s request).2.primal_genesis = some g2 := by
  rcases hm : MysticalMode.ofString request.mode with _ | m <;>
    simp [switch_mystical_mode, switch_mystical_mode_try, ServerState.log, hg, hm]

/-- C5: registry invariant.  From any initialized state, each of the four
operations (generate_traffic, switch_provider, switch_mystical_mode,
get_sovereign_status) leaves the engine handle present — never a
"no provider" / "no mode" state — with an active provider in the closed
seven-member enumeration and an active mode in the closed six-member
enumeration. -/
theorem c5_registry_invariant (s : ServerState) (g : PrimalGenesisModel)
    (hg : s.primal_genesis = some g) :
    (∀ request adapter, ∃ g2,
      (generate_traffic s request adapter).2.primal_genesis = some g2 ∧
      g2.current_provider ∈ PrimalGenesisProvider.all ∧
      g2.mystical_mode ∈ MysticalMode.all) ∧
    (∀ config, ∃ g2,
      (switch_provider s config).2.primal_genesis = some g2 ∧
      g2.current_provider ∈ PrimalGenesisProvider.all ∧
      g2.mystical_mode ∈ MysticalMode.all) ∧
    (∀ request, ∃ g2,
      (switch_mystical_mode s request).2.primal_genesis = some g2 ∧
      g2.current_provider ∈ PrimalGenesisProvider.all ∧
      g2.mystical_mode ∈ MysticalMode.all) ∧
    (∃ g2,
      (get_sovereign_status s).2.primal_genesis = some g2 ∧
      g2.current_provider ∈ PrimalGenesisProvider.all ∧
      g2.mystical_mode ∈ MysticalMode.all) := by
  refine ⟨?_, ?_, ?_, ?_⟩
  · intro request adapter
    obtain ⟨g2, h2⟩ := generate_traffic_engine_some s g request adapter hg
    exact ⟨g2, h2, provider_mem_all g2.current_provider, mode_mem_all g2.mystical_mode⟩
  · intro config
    obtain ⟨g2, h2⟩ := switch_provider_engine_some s g config hg
    exact ⟨g2, h2, provider_mem_all g2.current_provider, mode_mem_all g2.mystical_mode⟩
  · intro request
    obtain ⟨g2, h2⟩ := switch_mystical_mode_engine_some s g request hg
    exact ⟨g2, h2, provider_mem_all g2.current_provider, mode_mem_all g2.mystical_mode⟩
  · refine ⟨g, ?_, provider_mem_all g.current_provider, mode_mem_all g.mystical_mode⟩
    unfold get_sovereign_status
    rw [hg]
    exact hg

/-- C5 witness: the invariant applied at the startup state, instantiated at a
concrete switch-mode request. -/
theorem c5_witness :
    startupState.primal_genesis = some startupEngine ∧
    ∃ g2, (switch_mystical_mode startupState { mode := "ethereal" }).2.primal_genesis = some g2 ∧
      g2.current_provider ∈ PrimalGenesisProvider.all ∧
      g2.mystical_mode ∈ MysticalMode.all :=
  ⟨rfl, (c5_registry_invariant startupState startupEngine rfl).2.2.1 { mode := "ethereal" }⟩

/-- C6: credential installation precedes activation.  For every
`switch_provider` call with a non-empty credential and a valid provider, the
trace of the call appends the credential installation into the environment
side channel strictly before the provider commit, the environment holds the
credential under the provider's `api_key_env` name, and the call succeeds. -/
theorem c6_credential_before_commit (s : ServerState) (g : PrimalGenesisModel)
    (config : ProviderConfig) (p : PrimalGenesisProvider)
    (hg : s.primal_genesis = some g)
    (hk : config.api_key ≠ "")
    (hp : PrimalGenesisProvider.ofString config.provider = some p) :
    (switch_provider s config).2.events =
      s.events ++ [Event.setCredential (PrimalGenesisModel.provider_configs p) config.api_key,
        Event.commitProvider p] ∧
    (switch_provider s config).2.environ =
      os_environ_set s.environ (PrimalGenesisModel.provider_configs p) config.api_key ∧
    (switch_provider s config).1 = HResp.okSwitchProvider config.provider := by
  unfold switch_provider switch_provider_try switch_provider_commit ServerState.log
  rw [hg]
  simp [hk, hp]

/-- C6 witness: the theorem applied at the concrete call switching to
"openai" with credential "sk-test-123" from the startup state. -/
theorem c6_witness :
    startupState.primal_genesis = some startupEngine ∧
    cfgOpenaiWithKey.api_key ≠ "" ∧
    PrimalGenesisProvider.ofString cfgOpenaiWithKey.provider =
      some PrimalGenesisProvider.openai ∧
    (switch_provider startupState cfgOpenaiWithKey).2.events =
      startupState.events ++ [Event.setCredential "OPENAI_API_KEY" "sk-test-123",
        Event.commitProvider PrimalGenesisProvider.openai] :=
  ⟨rfl, by decide, by decide,
    (c6_credential_before_commit startupState startupEngine cfgOpenaiWithKey
      PrimalGenesisProvider.openai rfl (by decide) (by decide)).1⟩

/-- C7: broadcast schedule.  For at least one cycle, the first snapshot is
sent at time 0 — immediately upon subscription, before any idle waiting —
and the i-th snapshot is sent at time 30*i: one snapshot every fixed
interval of 30 time units while the connection remains active. -/
theorem c7_broadcast_schedule (engine : Option PrimalGenesisModel) (cycles : Nat)
    (h : 1 ≤ cycles) :
    (websocket_endpoint engine cycles).head? = some (0, websocket_message engine) ∧
    (websocket_endpoint engine cycles).length = cycles ∧
    ∀ i, ∀ hi : i < (websocket_endpoint engine cycles).length,
      (websocket_endpoint engine cycles).get ⟨i, hi⟩ = (30 * i, websocket_message engine) := by
  refine ⟨?_, ?_, ?_⟩
  · cases cycles with
    | zero => omega
    | succ n =>
      rw [websocket_endpoint_eq]
      simp [List.range_succ_eq_map]
  · rw [websocket_endpoint_eq]; simp
  · intro i hi
    rw [List.get_of_eq (websocket_endpoint_eq engine cycles)]
    simp

/-- C7 witness: the schedule theorem applied at two cycles with the engine
uninitialized: the first send happens at time 0. -/
theorem c7_witness :
    (1 : Nat) ≤ 2 ∧
    (websocket_endpoint none 2).head? = some (0, websocket_message none) :=
  ⟨by decide, (c7_broadcast_schedule none 2 (by decide)).1⟩

/-- C8: broadcast isolation.  When delivery to connection `a` fails
(`WebSocketDisconnect`), `a` transitions to Closed and is removed from the
broadcast set; any other connection `b` stays in the set and the message
delivered to `b` is unchanged by the removal (per-connection loops read only
the engine state, never the set); every iteration either delivers a snapshot
and stays active, or transitions to Closed — never a silent stop; and the
disconnect handling touches only `active_connections`, leaving the server
state the Request Surface reads untouched. -/
theorem c8_broadcast_isolation (conns : List Nat) (engine : Option PrimalGenesisModel)
    (a b : Nat)
    (hnd : conns.Nodup) (ha : a ∈ conns) (hb : b ∈ conns) (hab : a ≠ b) :
    (websocket_iteration conns engine a SendOutcome.disconnected).state = ConnState.closed ∧
    (websocket_iteration conns engine a SendOutcome.disconnected).conns = conns.erase a ∧
    a ∉ (websocket_iteration conns engine a SendOutcome.disconnected).conns ∧
    b ∈ (websocket_iteration conns engine a SendOutcome.disconnected).conns ∧
    (∀ conns2 : List Nat,
      (websocket_iteration conns2 engine b SendOutcome.delivered).sent =
        (websocket_iteration conns engine b SendOutcome.delivered).sent) ∧
    (websocket_iteration (conns.erase a) engine b SendOutcome.delivered).sent =
      some (websocket_message engine) ∧
    (∀ o, ((websocket_iteration conns engine b o).state = ConnState.active ∧
        (websocket_iteration conns engine b o).sent = some (websocket_message engine)) ∨
      (websocket_iteration conns engine b o).state = ConnState.closed) ∧
    (∀ sys : SystemState, (system_ws_disconnect sys a).server = sys.server) := by
  refine ⟨rfl, rfl, ?_, ?_, fun conns2 => rfl, rfl, ?_, fun sys => rfl⟩
  · simp only [websocket_iteration]
    exact hnd.not_mem_erase
  · simp only [websocket_iteration]
    exact (List.mem_erase_of_ne (Ne.symm hab)).mpr hb
  · intro o
    cases o with
    | delivered => exact Or.inl ⟨rfl, rfl⟩
    | disconnected => exact Or.inr rfl

/-- C8 witness: the isolation theorem applied to the concrete broadcast set
with connections 1 and 2, failing delivery to connection 1. -/
theorem c8_witness :
    ([1, 2] : List Nat).Nodup ∧ (1 : Nat) ∈ [1, 2] ∧ (2 : Nat) ∈ [1, 2] ∧ (1 : Nat) ≠ 2 ∧
    (2 : Nat) ∈ (websocket_iteration [1, 2] none 1 SendOutcome.disconnected).conns :=
  ⟨by decide, by decide, by decide, by decide,
    (c8_broadcast_isolation [1, 2] none 1 2 (by decide) (by decide) (by decide)
      (by decide)).2.2.2.1⟩

/-- C9: idempotence of SwitchProvider.  Calling `switch_provider` twice in a
row with the same valid identifier (and the same optional credential) leaves
the Registry in the same observable state as calling it once: the engine
aggregate, the environment side channel, and the `get_sovereign_status`
response all coincide. -/
theorem c9_switch_provider_idempotent (s : ServerState) (g : PrimalGenesisModel)
    (config : ProviderConfig) (p : PrimalGenesisProvider)
    (hg : s.primal_genesis = some g)
    (hp : PrimalGenesisProvider.ofString config.provider = some p) :
    (switch_provider (switch_provider s config).2 config).2.primal_genesis =
      (switch_provider s config).2.primal_genesis ∧
    (switch_provider (switch_provider s config).2 config).2.environ =
      (switch_provider s config).2.environ ∧
    (get_sovereign_status (switch_provider (switch_provider s config).2 config).2).1 =
      (get_sovereign_status (switch_provider s config).2).1 := by
  obtain ⟨gp, gm, ge, gf, ga, gt⟩ := g
  unfold switch_provider switch_provider_try switch_provider_commit get_sovereign_status
    ServerState.log
  rw [hg]
  by_cases hk : config.api_key = "" <;>
    simp [hk, hp, PrimalGenesisModel.switch_provider, os_environ_set_idem]

/-- C9 witness: the idempotence theorem applied at the concrete call
switching to "openai" with a credential, from the startup state. -/
theorem c9_witness :
    startupState.primal_genesis = some startupEngine ∧
    PrimalGenesisProvider.ofString cfgOpenaiWithKey.provider =
      some PrimalGenesisProvider.openai ∧
    (switch_provider (switch_provider startupState cfgOpenaiWithKey).2
        cfgOpenaiWithKey).2.primal_genesis =
      (switch_provider startupState cfgOpenaiWithKey).2.primal_genesis :=
  ⟨rfl, by decide,
    (c9_switch_provider_idempotent startupState startupEngine cfgOpenaiWithKey
      PrimalGenesisProvider.openai rfl (by decide)).1⟩

/-- C10: while the engine is uninitialized, subscribing to the live-status
channel cannot fail (accept and registration are unconditional), and every
cycle's message is a `status_update` whose data field is the empty object
(encoded `none`); whereas all four request/response operations reject with
the not-initialized server error at status 500 (the raised
`HTTPException(500, ...)` re-wrapped by the blanket clause). -/
theorem c10_uninitialized_channel (s : ServerState)
    (hg : s.primal_genesis = none) :
    (∀ conns c, c ∈ websocket_accept conns c) ∧
    (websocket_message s.primal_genesis).data = none ∧
    (websocket_message s.primal_genesis).type = "status_update" ∧
    (∀ cycles, ∀ x ∈ websocket_endpoint s.primal_genesis cycles,
      x.2 = websocket_message none) ∧
    (∀ request adapter, (generate_traffic s request adapter).1 =
      HResp.err 500 (pyStr (PyExc.http 500 notInitializedDetail))) ∧
    (∀ config, (switch_provider s config).1 =
      HResp.err 500 (pyStr (PyExc.http 500 notInitializedDetail))) ∧
    (∀ request, (switch_mystical_mode s request).1 =
      HResp.err 500 (pyStr (PyExc.http 500 notInitializedDetail))) ∧
    ((get_sovereign_status s).1 =
      HResp.err 500 (pyStr (PyExc.http 500 notInitializedDetail))) := by
  refine ⟨fun conns c => by simp [websocket_accept], ?_, ?_, ?_, ?_, ?_, ?_, ?_⟩
  · rw [hg]; rfl
  · rw [hg]; rfl
  · intro cycles x hx
    rw [hg, websocket_endpoint_eq] at hx
    obtain ⟨k, hk, rfl⟩ := List.mem_map.mp hx
    rfl
  · intro request adapter
    unfold generate_traffic generate_traffic_try
    rw [hg]
  · intro config
    unfold switch_provider switch_provider_try
    rw [hg]
  · intro request
    unfold switch_mystical_mode switch_mystical_mode_try
    rw [hg]
  · unfold get_sovereign_status
    rw [hg]

/-- C10 witness: the theorem applied at the pre-startup state, instantiated
at the status endpoint and at the first broadcast message. -/
theorem c10_witness :
    uninitState.primal_genesis = none ∧
    (get_sovereign_status uninitState).1 =
      HResp.err 500 (pyStr (PyExc.http 500 notInitializedDetail)) ∧
    (websocket_message uninitState.primal_genesis).data = none :=
  ⟨rfl, (c10_uninitialized_channel uninitState rfl).2.2.2.2.2.2.2,
    (c10_uninitialized_channel uninitState rfl).2.1⟩
